import Mathlib

/-!
Shallow embedding of the go-stun repository (package stun): the STUN
attribute/message wire codec (attribute.go, packet.go), the retransmission
engine and the four-probe NAT detection state machine (client.go).

Bytes are modelled as Nat (values < 256 on the wire); 16-bit machine
arithmetic is explicit (mod 65536).  Operations that can panic in Go
(out-of-range slice or index, nil-pointer dereference) are modelled in an
Option layer: a result of none marks a panic, some r marks normal
completion with result r.
-/

namespace Stun

/-- Big-endian 2-byte encoding, models binary.BigEndian.PutUint16. -/
def u16be (n : Nat) : List Nat := [n / 256 % 256, n % 256]

/-- Checked 2-byte big-endian read at index i, models
binary.BigEndian.Uint16(b[i:i+2]); none marks the Go panic when the slice
is out of range.  Go bytes are uint8, hence the explicit mod 256 on each
byte read from the model's Nat-valued lists. -/
def readU16 (d : List Nat) (i : Nat) : Option Nat :=
  match d[i]?, d[i + 1]? with
  | some a, some b => some (a % 256 * 256 + b % 256)
  | _, _ => none

/-- Total version of readU16 (0 on an out-of-range read); used to state
theorems where the checked read is known to succeed. -/
def readU16D (d : List Nat) (i : Nat) : Nat := (readU16 d i).getD 0

/-- Checked slice d[lo:hi], models a Go slice expression; none marks the
panic when lo > hi or hi > len(d). -/
def goSlice (d : List Nat) (lo hi : Nat) : Option (List Nat) :=
  if lo ≤ hi ∧ hi ≤ d.length then some ((d.drop lo).take (hi - lo)) else none

/-- Modelled from the spec: the repository file defining align is not under
src (only utils_test.go is).  Spec 4.1: align(n) is the smallest multiple
of 4 that is ≥ n (n=0 → 0); pinned by the expected values in utils_test.go. -/
def align (n : Nat) : Nat := (n + 3) / 4 * 4

/-- Modelled from the spec: the repository file defining padding is not
under src (only utils_test.go is).  Spec 4.1: pad the raw value with zero
bytes up to the next multiple of 4; pinned by utils_test.go
(padding [1,2] = [1,2,0,0]). -/
def padding (v : List Nat) : List Nat :=
  v ++ List.replicate (align v.length - v.length) 0

/-- Model of net.UDPAddr: raw IP bytes plus port. -/
structure UDPAddr where
  ip : List Nat
  port : Nat
deriving DecidableEq, Repr

/-- Models Go comparison a.String, == b.String, on possibly-nil
net.UDPAddr pointers (nil prints as a fixed marker, so nil equals only
nil); structural equality of the model addresses. -/
def addrOptEq (a b : Option UDPAddr) : Bool := a == b

/-- Go struct attribute from attribute.go (the Go name is a Lean keyword,
hence the capitalized Lean name). -/
structure Attribute where
  types : Nat
  length : Nat
  value : List Nat
deriving DecidableEq, Repr

/-- Go struct packet from packet.go. -/
structure packet where
  types : Nat
  length : Nat
  transID : List Nat
  attributes : List Attribute
  orgHost : Option UDPAddr
deriving DecidableEq, Repr

deriving instance DecidableEq for Except

def msgTypeBindingRequest : Nat := 0x0001
def attributeMappedAddress : Nat := 0x0001
def attributeChangeRequest : Nat := 0x0003
def attributeSourceAddress : Nat := 0x0004
def attributeChangedAddress : Nat := 0x0005

/-- Bytes of the local magic cookie 0xA2400227 written big-endian into
transID[0:4] by newPacket. -/
def magicCookieBytes : List Nat := [0xA2, 0x40, 0x02, 0x27]

/-- newAttribute from attribute.go: pads the value and stores the padded
length (uint16). -/
def newAttribute (types : Nat) (value : List Nat) : Attribute :=
  let v := padding value
  { types := types, length := v.length % 65536, value := v }

/-- newChangeReqAttribute from attribute.go. -/
def newChangeReqAttribute (changeIP changePort : Bool) : Attribute :=
  newAttribute attributeChangeRequest
    [0, 0, 0, (if changeIP then 4 else 0) + (if changePort then 2 else 0)]

/-- packet.addAttribute from packet.go: appends and bumps the uint16
length field by align(a.length) + 4. -/
def addAttribute (p : packet) (a : Attribute) : packet :=
  { p with attributes := p.attributes ++ [a],
           length := (p.length + (align a.length + 4)) % 65536 }

/-- Encoding of one attribute inside packet.serialize: type, stored
length, then the (already padded) value bytes. -/
def encodeAttr (a : Attribute) : List Nat :=
  u16be a.types ++ u16be a.length ++ a.value

/-- Attribute stream written by packet.serialize, in insertion order. -/
def encodeAttrs (attrs : List Attribute) : List Nat :=
  (attrs.map encodeAttr).flatten

/-- packet.serialize from packet.go. -/
def serialize (p : packet) : List Nat :=
  u16be p.types ++ u16be p.length ++ p.transID ++ encodeAttrs p.attributes

/-- The attribute loop of parsePackage, pos-indexed over the buffer that
remains after the 20-byte header, with explicit uint16 arithmetic exactly
where the Go code computes in uint16 (pos, pos+4, end, the length cast).
The fuel argument is a modelling artifact (the Go loop is unbounded);
parseAttrs_eq_rec shows the fuel passed by parsePackage can never run
out.  none marks a Go panic (out-of-range slice) or fuel exhaustion. -/
def parseAttrs (d : List Nat) : Nat → Nat → packet → Option (Except String packet)
  | 0, _, _ => none
  | fuel + 1, pos, pkt =>
    if (pos + 4) % 65536 < d.length % 65536 then
      match readU16 d pos, readU16 d (pos + 2) with
      | some ty, some len =>
        let e := (pos + 4 + len) % 65536
        if e < (pos + 4) % 65536 ∨ d.length % 65536 < e then
          some (.error "received data format mismatch")
        else
          match goSlice d ((pos + 4) % 65536) e with
          | some value =>
            parseAttrs d fuel ((pos + (align len + 4)) % 65536)
              (addAttribute pkt (newAttribute ty value))
          | none => none
      | _, _ => none
    else
      some (.ok pkt)

/-- parsePackage from packet.go.  none marks a Go panic; some (.error s)
is the Go (nil, error) return; some (.ok p) the parsed packet. -/
def parsePackage (d : List Nat) : Option (Except String packet) :=
  if d.length < 20 then some (.error "received data length too short")
  else if 65535 < d.length then some (.error "received data length too long")
  else
    match readU16 d 0, readU16 d 2, goSlice d 4 20 with
    | some ty, some len, some tid =>
      let rest := d.drop 20
      parseAttrs rest (rest.length + 1) 0
        { types := ty, length := len, transID := tid, attributes := [], orgHost := none }
    | _, _, _ => none

/-- Proof-side restatement of the parsePackage attribute loop, structural
on the not-yet-consumed suffix of the buffer; parseAttrs_eq_rec shows it
agrees with parseAttrs on every state the loop can reach. -/
def parseAttrsRec : List Nat → packet → Except String packet
  | d, pkt =>
    if h : 4 < d.length then
      let len := readU16D d 2
      if d.length < 4 + len then .error "received data format mismatch"
      else
        parseAttrsRec (d.drop (align len + 4))
          (addAttribute pkt (newAttribute (readU16D d 0) ((d.drop 4).take len)))
    else .ok pkt
  termination_by d => d.length
  decreasing_by
    simp only [List.length_drop]
    omega

/-- attribute.commAddr from attribute.go: reads the port from value[2:4]
and the IP from value[4:length]; none marks the Go panic when the value is
shorter than 4 bytes or the stored length is outside [4, len(value)]. -/
def commAddr (a : Attribute) : Option UDPAddr :=
  match readU16 a.value 2 with
  | none => none
  | some port =>
    match goSlice a.value 4 a.length with
    | none => none
    | some ipBytes => some { ip := ipBytes, port := port }

/-- Inner loop of packet.findAttrAddr over the attribute list.  The outer
Option marks a panic inside commAddr; some none is the Go nil return when
no attribute of the requested type exists. -/
def findAttrAddrGo (t : Nat) : List Attribute → Option (Option UDPAddr)
  | [] => some none
  | a :: rest =>
    if a.types = t then
      match commAddr a with
      | none => none
      | some addr => some (some addr)
    else findAttrAddrGo t rest

/-- packet.findAttrAddr from packet.go. -/
def findAttrAddr (p : packet) (t : Nat) : Option (Option UDPAddr) :=
  findAttrAddrGo t p.attributes

/-- packet.getMappedAddr. -/
def getMappedAddr (p : packet) : Option (Option UDPAddr) :=
  findAttrAddr p attributeMappedAddress

/-- packet.getChangedAddr. -/
def getChangedAddr (p : packet) : Option (Option UDPAddr) :=
  findAttrAddr p attributeChangedAddress

theorem align_le (n : Nat) : n ≤ align n := by unfold align; omega

theorem align_le_add (n : Nat) : align n ≤ n + 3 := by unfold align; omega

theorem align_mod (n : Nat) : align n % 4 = 0 := by unfold align; omega

theorem align_of_mod (n : Nat) (h : n % 4 = 0) : align n = n := by unfold align; omega

theorem padding_length (v : List Nat) : (padding v).length = align v.length := by
  have := align_le v.length
  simp [padding]
  omega

theorem padding_of_mod (v : List Nat) (h : v.length % 4 = 0) : padding v = v := by
  simp [padding, align_of_mod _ h]

theorem readU16D_lt (d : List Nat) (i : Nat) : readU16D d i < 65536 := by
  unfold readU16D readU16
  cases d[i]? with
  | none => simp
  | some a =>
    cases d[i + 1]? with
    | none => simp
    | some b =>
      simp only [Option.getD_some]
      have := Nat.mod_lt a (show 0 < 256 by omega)
      have := Nat.mod_lt b (show 0 < 256 by omega)
      omega

theorem readU16_eq_some (d : List Nat) (i : Nat) (h : i + 1 < d.length) :
    readU16 d i = some (readU16D d i) := by
  have h1 : i < d.length := by omega
  simp [readU16, readU16D, List.getElem?_eq_getElem, h, h1]

theorem readU16_drop (d : List Nat) (pos j : Nat) :
    readU16 (d.drop pos) j = readU16 d (pos + j) := by
  simp [readU16, List.getElem?_drop, Nat.add_assoc]

theorem readU16D_drop (d : List Nat) (pos j : Nat) :
    readU16D (d.drop pos) j = readU16D d (pos + j) := by
  simp [readU16D, readU16_drop]

/-- The fuel-indexed attribute loop agrees with its structural
restatement on every state reachable from parsePackage: the buffer after
the header is at most 65515 bytes, and pos never runs more than 3 bytes
past the end.  In particular the fuel and the panic marker of parseAttrs
are never hit. -/
theorem parseAttrs_eq_rec (d : List Nat) (fuel : Nat) :
    ∀ (pos : Nat) (pkt : packet), d.length ≤ 65515 → pos ≤ d.length + 3 →
      d.length - pos < fuel →
      parseAttrs d fuel pos pkt = some (parseAttrsRec (d.drop pos) pkt) := by
  induction fuel with
  | zero => intro pos pkt _ _ h; exact absurd h (Nat.not_lt_zero _)
  | succ fuel ih =>
    intro pos pkt hlen hpos hfuel
    have hdl : d.length % 65536 = d.length := Nat.mod_eq_of_lt (by omega)
    have hp4 : (pos + 4) % 65536 = pos + 4 := Nat.mod_eq_of_lt (by omega)
    rw [parseAttrs, parseAttrsRec]
    by_cases hg : pos + 4 < d.length
    · rw [if_pos (by rw [hp4, hdl]; exact hg)]
      rw [dif_pos (by simp only [List.length_drop]; omega)]
      rw [readU16_eq_some d pos (by omega), readU16_eq_some d (pos + 2) (by omega)]
      simp only [readU16D_drop, Nat.add_zero]
      have hlt : readU16D d (pos + 2) < 65536 := readU16D_lt d (pos + 2)
      set len := readU16D d (pos + 2) with hlendef
      by_cases hw : pos + 4 + len < 65536
      · have he : (pos + 4 + len) % 65536 = pos + 4 + len := Nat.mod_eq_of_lt hw
        by_cases herr : d.length < pos + 4 + len
        · rw [if_pos (by rw [he, hp4, hdl]; omega)]
          rw [if_pos (by simp only [List.length_drop]; omega)]
        · rw [if_neg (by rw [he, hp4, hdl]; omega)]
          rw [if_neg (by simp only [List.length_drop]; omega)]
          have hslice : goSlice d ((pos + 4) % 65536) ((pos + 4 + len) % 65536) =
              some ((d.drop (pos + 4)).take len) := by
            rw [hp4, he]
            simp only [goSlice, if_pos (show pos + 4 ≤ pos + 4 + len ∧
              pos + 4 + len ≤ d.length by omega)]
            rw [show pos + 4 + len - (pos + 4) = len by omega]
          have hstep : (pos + (align len + 4)) % 65536 = pos + (align len + 4) := by
            have := align_le_add len
            exact Nat.mod_eq_of_lt (by omega)
          rw [hstep, List.drop_drop, List.drop_drop]
          simp only [hslice]
          exact ih (pos + (align len + 4)) _ hlen
            (by have := align_le_add len; omega)
            (by omega)
      · have he : (pos + 4 + len) % 65536 = pos + 4 + len - 65536 := by omega
        rw [if_pos (by rw [he, hp4]; omega)]
        rw [if_pos (by simp only [List.length_drop]; omega)]
    · rw [if_neg (by rw [hp4, hdl]; exact hg)]
      rw [dif_neg (by simp only [List.length_drop]; omega)]

/-- Closed form of parsePackage on inputs that pass both length guards. -/
theorem parsePackage_eq (d : List Nat) (h20 : 20 ≤ d.length) (h65 : d.length ≤ 65535) :
    parsePackage d = some (parseAttrsRec (d.drop 20)
      { types := readU16D d 0, length := readU16D d 2, transID := (d.drop 4).take 16,
        attributes := [], orgHost := none }) := by
  unfold parsePackage
  rw [if_neg (by omega), if_neg (by omega)]
  rw [readU16_eq_some d 0 (by omega), readU16_eq_some d 2 (by omega)]
  have hs : goSlice d 4 20 = some ((d.drop 4).take 16) := by
    simp only [goSlice, if_pos (show 4 ≤ 20 ∧ 20 ≤ d.length by omega)]
  rw [hs]
  exact parseAttrs_eq_rec _ _ 0 _ (by simp only [List.length_drop]; omega) (by omega)
    (by simp only [List.length_drop]; omega)

theorem encodeAttrs_cons (a : Attribute) (attrs : List Attribute) :
    encodeAttrs (a :: attrs) = encodeAttr a ++ encodeAttrs attrs := by
  simp [encodeAttrs]

theorem length_encodeAttr (a : Attribute) : (encodeAttr a).length = 4 + a.value.length := by
  simp [encodeAttr, u16be]
  omega

theorem length_encodeAttrs (attrs : List Attribute) :
    (encodeAttrs attrs).length = (attrs.map (fun a => 4 + a.value.length)).sum := by
  induction attrs with
  | nil => rfl
  | cons a rest ih =>
    simp [encodeAttrs_cons, length_encodeAttr, ih]

/-- Parsing the attribute stream written by serialize recovers exactly the
attribute list, provided every attribute is well formed (stored length =
padded value length, a multiple of 4, below 2^16; type below 2^16) and the
last attribute has a nonempty value (a trailing empty attribute is dropped
because the loop requires strictly more than 4 remaining bytes). -/
theorem parseAttrsRec_encode :
    ∀ (attrs : List Attribute) (pkt : packet),
      (∀ a ∈ attrs, a.length = a.value.length ∧ a.length % 4 = 0 ∧
        a.length < 65536 ∧ a.types < 65536) →
      (∀ a, attrs.getLast? = some a → a.value ≠ []) →
      parseAttrsRec (encodeAttrs attrs) pkt = .ok (attrs.foldl addAttribute pkt)
  | [], pkt, _, _ => by
    rw [parseAttrsRec]
    norm_num [encodeAttrs]
  | a :: rest, pkt, hwf, hlast => by
    obtain ⟨hal, ha4, ha65, haty⟩ := hwf a (by simp)
    have hstream : encodeAttrs (a :: rest) =
        a.types / 256 % 256 :: a.types % 256 :: a.length / 256 % 256 :: a.length % 256 ::
          (a.value ++ encodeAttrs rest) := by
      simp [encodeAttrs_cons, encodeAttr, u16be]
    have hlen4 : 4 < (encodeAttrs (a :: rest)).length := by
      rw [hstream]
      simp only [List.length_cons, List.length_append]
      rcases rest with _ | ⟨b, rest2⟩
      · have := hlast a (by simp)
        have : a.value.length ≠ 0 := by simpa [List.length_eq_zero] using this
        omega
      · have : 4 ≤ (encodeAttrs (b :: rest2)).length := by
          rw [encodeAttrs_cons]
          simp only [List.length_append, length_encodeAttr]
          omega
        omega
    rw [parseAttrsRec, dif_pos hlen4]
    have hr0 : readU16D (encodeAttrs (a :: rest)) 0 = a.types := by
      rw [hstream]
      simp [readU16D, readU16]
      omega
    have hr2 : readU16D (encodeAttrs (a :: rest)) 2 = a.length := by
      rw [hstream]
      simp [readU16D, readU16]
      omega
    rw [hr2, hr0]
    have hlenle : ¬ ((encodeAttrs (a :: rest)).length < 4 + a.length) := by
      rw [hstream]
      simp only [List.length_cons, List.length_append]
      omega
    rw [if_neg hlenle]
    have hdrop4 : (encodeAttrs (a :: rest)).drop 4 = a.value ++ encodeAttrs rest := by
      rw [hstream]
      simp
    have hvalue : ((encodeAttrs (a :: rest)).drop 4).take a.length = a.value := by
      rw [hdrop4]
      exact List.take_left' hal.symm
    have hnew : newAttribute a.types (((encodeAttrs (a :: rest)).drop 4).take a.length) = a := by
      rw [hvalue]
      have hv4 : a.value.length % 4 = 0 := by omega
      obtain ⟨t, ln, v⟩ := a
      simp only at hal ha65 hv4 ⊢
      simp [newAttribute, padding_of_mod v hv4, hal, Nat.mod_eq_of_lt (hal ▸ ha65)]
    have hdropnext : (encodeAttrs (a :: rest)).drop (align a.length + 4) = encodeAttrs rest := by
      have hcomm : align a.length + 4 = 4 + a.length := by
        rw [align_of_mod _ ha4]
        omega
      rw [hcomm, ← List.drop_drop, hdrop4]
      exact List.drop_left' hal.symm
    rw [hnew, hdropnext, List.foldl_cons]
    exact parseAttrsRec_encode rest (addAttribute pkt a)
      (fun x hx => hwf x (by simp [hx]))
      (fun x hx => by
        rcases rest with _ | ⟨b, rest2⟩
        · simp at hx
        · exact hlast x (by rwa [List.getLast?_cons_cons]))
  termination_by attrs => attrs.length

/-- Effect of a sequence of addAttribute calls on the non-length fields. -/
theorem foldl_addAttribute_fields :
    ∀ (attrs : List Attribute) (p : packet),
      (attrs.foldl addAttribute p).attributes = p.attributes ++ attrs ∧
      (attrs.foldl addAttribute p).types = p.types ∧
      (attrs.foldl addAttribute p).transID = p.transID
  | [], p => by simp
  | a :: rest, p => by
    have ih := foldl_addAttribute_fields rest (addAttribute p a)
    rw [List.foldl_cons]
    refine ⟨?_, ?_, ?_⟩
    · rw [ih.1]; simp [addAttribute]
    · rw [ih.2.1]; simp [addAttribute]
    · rw [ih.2.2]; simp [addAttribute]

/-- A packet built through the construction API of the source code: a
fresh packet (zero length, no attributes, the given 16-byte transaction
id), the message type set, then one addAttribute (newAttribute t v) per
element of raws in order, exactly as the probes and the tests build
messages. -/
def buildPacket (ty : Nat) (tid : List Nat) (raws : List (Nat × List Nat)) : packet :=
  raws.foldl (fun p tv => addAttribute p (newAttribute tv.1 tv.2))
    { types := ty, length := 0, transID := tid, attributes := [], orgHost := none }

theorem buildPacket_eq (ty : Nat) (tid : List Nat) (raws : List (Nat × List Nat)) :
    buildPacket ty tid raws =
      (raws.map (fun tv => newAttribute tv.1 tv.2)).foldl addAttribute
        { types := ty, length := 0, transID := tid, attributes := [], orgHost := none } := by
  rw [buildPacket, List.foldl_map]

theorem padding_ne_nil (v : List Nat) (h : v ≠ []) : padding v ≠ [] := by
  intro hc
  exact h (List.append_eq_nil.mp hc).1

/-- C5 (amended): for a message built through the construction API, with
each attribute type a uint16 value, a 16-byte transaction id, a serialized
size of at most 65535 bytes, and a nonempty final attribute value,
serialize-then-parse yields a message with the same type, the same
transaction id and exactly the same attributes (types in insertion order,
zero-padded values, stored length = padded value length).  The size bound
and the nonempty-final-value condition are forced by the counterexample
c5_encode_decode_roundtrip_cx: the parser drops a trailing empty
attribute, and rejects inputs over 65535 bytes. -/
theorem c5_encode_decode_roundtrip (ty : Nat) (tid : List Nat) (raws : List (Nat × List Nat))
    (hty : ty < 65536) (htid : tid.length = 16)
    (hts : ∀ tv ∈ raws, tv.1 < 65536)
    (hsize : (serialize (buildPacket ty tid raws)).length ≤ 65535)
    (hlast : ∀ tv, raws.getLast? = some tv → tv.2 ≠ []) :
    ∃ p, parsePackage (serialize (buildPacket ty tid raws)) = some (.ok p) ∧
      p.types = (buildPacket ty tid raws).types ∧
      p.transID = (buildPacket ty tid raws).transID ∧
      p.attributes = (buildPacket ty tid raws).attributes ∧
      (buildPacket ty tid raws).attributes =
        raws.map (fun tv => newAttribute tv.1 tv.2) ∧
      ∀ a ∈ (buildPacket ty tid raws).attributes, a.length = a.value.length := by
  set m := buildPacket ty tid raws with hm
  set attrs := raws.map (fun tv => newAttribute tv.1 tv.2) with hattrs
  have hbase := foldl_addAttribute_fields attrs
    { types := ty, length := 0, transID := tid, attributes := [], orgHost := none }
  have hmattrs : m.attributes = attrs := by
    rw [hm, buildPacket_eq, ← hattrs, hbase.1]
    simp
  have hmty : m.types = ty := by rw [hm, buildPacket_eq, ← hattrs, hbase.2.1]
  have hmtid : m.transID = tid := by rw [hm, buildPacket_eq, ← hattrs, hbase.2.2]
  have hser : serialize m = u16be ty ++ u16be m.length ++ tid ++ encodeAttrs attrs := by
    rw [serialize, hmty, hmtid, hmattrs]
  have hcons : serialize m = ty / 256 % 256 :: ty % 256 ::
      m.length / 256 % 256 :: m.length % 256 :: (tid ++ encodeAttrs attrs) := by
    rw [hser]
    simp [u16be]
  have hslen : (serialize m).length = 20 + (encodeAttrs attrs).length := by
    rw [hcons]
    simp [htid]
    omega
  have hstream65 : (encodeAttrs attrs).length ≤ 65515 := by
    rw [hslen] at hsize
    omega
  have hwf : ∀ a ∈ attrs, a.length = a.value.length ∧ a.length % 4 = 0 ∧
      a.length < 65536 ∧ a.types < 65536 := by
    intro a ha
    have hbound : 4 + a.value.length ≤ (encodeAttrs attrs).length := by
      rw [length_encodeAttrs]
      exact List.single_le_sum (fun x _ => Nat.zero_le x) _
        (List.mem_map_of_mem _ ha)
    rw [hattrs] at ha
    obtain ⟨tv, htv, rfl⟩ := List.mem_map.mp ha
    refine ⟨?_, ?_, ?_, ?_⟩
    · simp only [newAttribute] at hbound ⊢
      exact Nat.mod_eq_of_lt (by omega)
    · simp only [newAttribute] at hbound ⊢
      have hplt : (padding tv.2).length < 65536 := by omega
      rw [Nat.mod_eq_of_lt hplt, padding_length]
      exact align_mod _
    · simp only [newAttribute] at hbound ⊢
      have := Nat.mod_lt (padding tv.2).length (show 0 < 65536 by omega)
      omega
    · simpa [newAttribute] using hts tv htv
  have hlast2 : ∀ a, attrs.getLast? = some a → a.value ≠ [] := by
    intro a ha
    rw [hattrs, List.getLast?_map] at ha
    obtain ⟨tv, htv, rfl⟩ := Option.map_eq_some'.mp ha
    exact padding_ne_nil _ (hlast tv htv)
  have h20 : 20 ≤ (serialize m).length := by omega
  have hd4 : (serialize m).drop 4 = tid ++ encodeAttrs attrs := by rw [hcons]; rfl
  have hd20 : (serialize m).drop 20 = encodeAttrs attrs := by
    rw [show (20 : Nat) = 4 + 16 from rfl, ← List.drop_drop, hd4]
    exact List.drop_left' htid
  have ht16 : ((serialize m).drop 4).take 16 = tid := by
    rw [hd4]
    exact List.take_left' htid
  have hr0 : readU16D (serialize m) 0 = ty := by
    rw [hcons]
    simp [readU16D, readU16]
    omega
  rw [parsePackage_eq _ h20 hsize, hd20, ht16, hr0]
  rw [parseAttrsRec_encode attrs _ hwf hlast2]
  refine ⟨_, rfl, ?_, ?_, ?_, hmattrs, ?_⟩
  · rw [(foldl_addAttribute_fields attrs _).2.1, hmty]
  · rw [(foldl_addAttribute_fields attrs _).2.2, hmtid]
  · rw [(foldl_addAttribute_fields attrs _).1, hmattrs]
    simp
  · intro a ha
    rw [hmattrs] at ha
    exact (hwf a ha).1

/-- Concrete witness for c5_encode_decode_roundtrip, applying the theorem
to a message with one 4-byte attribute. -/
theorem c5_encode_decode_roundtrip_witness :
    ∃ p, parsePackage (serialize (buildPacket 1 (List.replicate 16 7) [(3, [0, 0, 0, 6])])) =
        some (.ok p) ∧
      p.types = (buildPacket 1 (List.replicate 16 7) [(3, [0, 0, 0, 6])]).types ∧
      p.transID = (buildPacket 1 (List.replicate 16 7) [(3, [0, 0, 0, 6])]).transID ∧
      p.attributes = (buildPacket 1 (List.replicate 16 7) [(3, [0, 0, 0, 6])]).attributes ∧
      (buildPacket 1 (List.replicate 16 7) [(3, [0, 0, 0, 6])]).attributes =
        [(3, [0, 0, 0, 6])].map (fun tv => newAttribute tv.1 tv.2) ∧
      ∀ a ∈ (buildPacket 1 (List.replicate 16 7) [(3, [0, 0, 0, 6])]).attributes,
        a.length = a.value.length :=
  c5_encode_decode_roundtrip 1 (List.replicate 16 7) [(3, [0, 0, 0, 6])]
    (by decide) (by decide) (by decide) (by decide) (by decide)

/-- C5 counterexample input: a message whose single attribute has an empty
raw value. -/
def c5cxPacket : packet :=
  buildPacket 257 (magicCookieBytes ++ List.replicate 12 0) [(1, [])]

/-- C5 counterexample: the claim promises the round trip preserves the
attribute list for arbitrary raw value lengths, but a message whose last
attribute has an empty value serializes to 24 bytes and parses back with
no attributes at all (the loop stops once at most 4 bytes remain). -/
theorem c5_encode_decode_roundtrip_cx :
    c5cxPacket.attributes.length = 1 ∧
    parsePackage (serialize c5cxPacket) =
      some (.ok { types := 257, length := 4,
                  transID := magicCookieBytes ++ List.replicate 12 0,
                  attributes := [], orgHost := none }) := by
  constructor
  · rfl
  · rfl

/-- C8: parsePackage is total — it never panics (no out-of-bounds access,
and the attribute loop always terminates within the fuel supplied), and
returns a packet or an error; inputs shorter than 20 bytes fail as too
short, inputs longer than 65535 bytes fail as too long. -/
theorem c8_parse_total (d : List Nat) :
    (∃ r, parsePackage d = some r) ∧
    (d.length < 20 → parsePackage d = some (.error "received data length too short")) ∧
    (65535 < d.length → parsePackage d = some (.error "received data length too long")) := by
  refine ⟨?_, ?_, ?_⟩
  · by_cases h1 : d.length < 20
    · exact ⟨_, by unfold parsePackage; rw [if_pos h1]⟩
    · by_cases h2 : 65535 < d.length
      · exact ⟨_, by unfold parsePackage; rw [if_neg h1, if_pos h2]⟩
      · exact ⟨_, parsePackage_eq d (by omega) (by omega)⟩
  · intro h
    unfold parsePackage
    rw [if_pos h]
  · intro h
    unfold parsePackage
    rw [if_neg (by omega), if_pos h]

/-- Concrete witness for c8_parse_total at an 18-byte input. -/
theorem c8_parse_total_witness :
    parsePackage (List.replicate 18 0) = some (.error "received data length too short") :=
  (c8_parse_total (List.replicate 18 0)).2.1 (by decide)

/-- C6 failing input: a 28-byte response whose header declares length 8
and which carries one attribute of padded length 4. -/
def c6bugInput : List Nat :=
  [1, 1, 0, 8] ++ List.replicate 16 0 ++ [0, 1, 0, 4, 1, 2, 3, 4]

/-- C6 (code bug): the length-field invariant fails for parser-returned
messages.  parsePackage first copies the received header length (8) into
the length field and then lets addAttribute increment it again for every
decoded attribute, so the parsed packet carries length 16 while the sum
over its attributes of 4 + align(length) is 8. -/
theorem c6_parsed_length_double_counts :
    parsePackage c6bugInput =
      some (.ok { types := 257, length := 16, transID := List.replicate 16 0,
                  attributes := [{ types := 1, length := 4, value := [1, 2, 3, 4] }],
                  orgHost := none }) ∧
    ((({ types := 257, length := 16, transID := List.replicate 16 0,
         attributes := [{ types := 1, length := 4, value := [1, 2, 3, 4] }],
         orgHost := none } : packet)).attributes.foldl
        (fun s a => s + (4 + align a.length)) 0) = 8 ∧ (16 : Nat) ≠ 8 := by
  refine ⟨?_, ?_, ?_⟩ <;> decide

/-- C7 (amended): one step of the attribute loop at offset pos, on a
stream at most 65515 bytes long as guaranteed by the header parser.  The
loop runs only while strictly more than 4 bytes remain; it reads the
2-byte type and 2-byte declared length; it fails with the format error
exactly when pos + 4 + length (the unpadded end of the value) exceeds the
stream length; otherwise it records the value bytes and advances by
exactly 4 + align(length).  Contrary to the claim, the bound check uses
the raw declared length, not the padded consumed size 4 + align(length),
and decoding stops when exactly 4 bytes remain. -/
theorem c7_attribute_step (d : List Nat) (fuel pos : Nat) (pkt : packet)
    (hlen : d.length ≤ 65515) (hpos : pos ≤ d.length + 3) :
    (d.length ≤ pos + 4 → parseAttrs d (fuel + 1) pos pkt = some (.ok pkt)) ∧
    (pos + 4 < d.length →
      (d.length < pos + 4 + readU16D d (pos + 2) →
        parseAttrs d (fuel + 1) pos pkt = some (.error "received data format mismatch")) ∧
      (pos + 4 + readU16D d (pos + 2) ≤ d.length →
        parseAttrs d (fuel + 1) pos pkt =
          parseAttrs d fuel (pos + 4 + align (readU16D d (pos + 2)))
            (addAttribute pkt (newAttribute (readU16D d pos)
              ((d.drop (pos + 4)).take (readU16D d (pos + 2))))))) := by
  have hdl : d.length % 65536 = d.length := Nat.mod_eq_of_lt (by omega)
  have hp4 : (pos + 4) % 65536 = pos + 4 := Nat.mod_eq_of_lt (by omega)
  have hlt : readU16D d (pos + 2) < 65536 := readU16D_lt d (pos + 2)
  constructor
  · intro hstop
    rw [parseAttrs, if_neg (by rw [hp4, hdl]; omega)]
  · intro hg
    set len := readU16D d (pos + 2) with hlendef
    constructor
    · intro herr
      rw [parseAttrs, if_pos (by rw [hp4, hdl]; omega)]
      rw [readU16_eq_some d pos (by omega), readU16_eq_some d (pos + 2) (by omega)]
      simp only []
      by_cases hw : pos + 4 + len < 65536
      · rw [if_pos (by rw [Nat.mod_eq_of_lt hw, hp4, hdl]; omega)]
      · have he2 : (pos + 4 + len) % 65536 = pos + 4 + len - 65536 := by omega
        rw [if_pos (by rw [he2, hp4]; omega)]
    · intro hok
      rw [parseAttrs, if_pos (by rw [hp4, hdl]; omega)]
      rw [readU16_eq_some d pos (by omega), readU16_eq_some d (pos + 2) (by omega)]
      simp only []
      have he : (pos + 4 + len) % 65536 = pos + 4 + len := Nat.mod_eq_of_lt (by omega)
      rw [if_neg (by rw [he, hp4, hdl]; omega)]
      have hslice : goSlice d ((pos + 4) % 65536) ((pos + 4 + len) % 65536) =
          some ((d.drop (pos + 4)).take len) := by
        rw [hp4, he]
        simp only [goSlice, if_pos (show pos + 4 ≤ pos + 4 + len ∧
          pos + 4 + len ≤ d.length by omega)]
        rw [show pos + 4 + len - (pos + 4) = len by omega]
      simp only [hslice]
      have hstep : (pos + (align len + 4)) % 65536 = pos + (align len + 4) := by
        have := align_le_add len
        exact Nat.mod_eq_of_lt (by omega)
      rw [hstep, (show pos + (align len + 4) = pos + 4 + align len by omega)]

/-- Concrete witness for c7_attribute_step: an 8-byte stream holding one
4-byte-value attribute, examined at offset 0. -/
theorem c7_attribute_step_witness :
    parseAttrs [0, 3, 0, 4, 9, 9, 9, 9] 1 0
        { types := 0, length := 0, transID := [], attributes := [], orgHost := none } =
      parseAttrs [0, 3, 0, 4, 9, 9, 9, 9] 0 (0 + 4 + align (readU16D [0, 3, 0, 4, 9, 9, 9, 9] 2))
        (addAttribute { types := 0, length := 0, transID := [], attributes := [], orgHost := none }
          (newAttribute (readU16D [0, 3, 0, 4, 9, 9, 9, 9] 0)
            (([0, 3, 0, 4, 9, 9, 9, 9].drop (0 + 4)).take (readU16D [0, 3, 0, 4, 9, 9, 9, 9] 2)))) :=
  ((c7_attribute_step [0, 3, 0, 4, 9, 9, 9, 9] 0 0 _ (by decide) (by decide)).2
    (by decide)).2 (by decide)

/-- C7 counterexample input: a 30-byte message whose attribute region is
10 bytes — one attribute with declared length 5 (padded consumed size
4 + align(5) = 12 > 10). -/
def c7cxInput : List Nat := List.replicate 20 0 ++ [0, 1, 0, 5, 9, 9, 9, 9, 9, 7]

/-- C7 counterexample: the claim says decoding fails with a format error
exactly when pos + 4 + align(length) exceeds the remaining buffer.  Here
pos = 0, align(5) = 8, so the claimed consumed size 12 exceeds the 10
remaining bytes, yet the code checks the unpadded end 4 + 5 = 9 ≤ 10 and
succeeds, returning the attribute with its 5 value bytes padded to 8. -/
theorem c7_attribute_step_cx :
    (4 + align 5 > 10) ∧
    parsePackage c7cxInput =
      some (.ok { types := 0, length := 12, transID := List.replicate 16 0,
                  attributes := [{ types := 1, length := 8, value := [9, 9, 9, 9, 9, 0, 0, 0] }],
                  orgHost := none }) := by
  constructor
  · decide
  · rfl

theorem commAddr_panic_of_short (a : Attribute) (h : a.value.length < 4) :
    commAddr a = none := by
  unfold commAddr readU16
  have h2 : a.value[2]? = none ∨ a.value[3]? = none := by
    rcases Nat.lt_or_ge a.value.length 3 with h3 | h3
    · exact Or.inl (List.getElem?_eq_none (by omega))
    · exact Or.inr (List.getElem?_eq_none (by omega))
  rcases h2 with h2 | h2 <;> rw [h2] <;> rcases a.value[2]? with _ | x <;> simp_all

theorem commAddr_ok (a : Attribute) (h4 : 4 ≤ a.value.length) (hl4 : 4 ≤ a.length)
    (hlv : a.length ≤ a.value.length) :
    commAddr a = some { ip := (a.value.drop 4).take (a.length - 4),
                        port := readU16D a.value 2 } := by
  unfold commAddr
  rw [readU16_eq_some a.value 2 (by omega)]
  have hs : goSlice a.value 4 a.length = some ((a.value.drop 4).take (a.length - 4)) := by
    simp only [goSlice, if_pos (show 4 ≤ a.length ∧ a.length ≤ a.value.length by omega)]
  rw [hs]

/-- C9 (amended): the address accessor returns the Go nil (modelled
some none) when no attribute of the requested type is present; on the
first matching attribute it decodes unconditionally: with a value of at
least 4 bytes and a stored length between 4 and the value length it
returns the address (port from value bytes 2-3, IP = value[4:length]);
but with a value shorter than 4 bytes it panics (modelled none) instead
of returning the graceful none the claim promises — see the
counterexample c9_accessor_cx. -/
theorem c9_accessor_behavior (p : packet) (t : Nat) :
    (p.attributes.find? (fun a => a.types == t) = none → findAttrAddr p t = some none) ∧
    (∀ a, p.attributes.find? (fun a => a.types == t) = some a →
      (a.value.length < 4 → findAttrAddr p t = none) ∧
      (4 ≤ a.value.length → 4 ≤ a.length → a.length ≤ a.value.length →
        findAttrAddr p t = some (some { ip := (a.value.drop 4).take (a.length - 4),
                                        port := readU16D a.value 2 }))) := by
  unfold findAttrAddr
  induction p.attributes with
  | nil => exact ⟨fun _ => rfl, fun a ha => by simp at ha⟩
  | cons b rest ih =>
    by_cases hb : b.types = t
    · refine ⟨fun hn => ?_, fun a ha => ?_⟩
      · rw [List.find?_cons_of_pos _ (by simp [hb])] at hn
        exact absurd hn (by simp)
      · rw [List.find?_cons_of_pos _ (by simp [hb])] at ha
        have hba : b = a := by simpa using ha
        subst hba
        constructor
        · intro hshort
          rw [findAttrAddrGo, if_pos hb, commAddr_panic_of_short b hshort]
        · intro h4 hl4 hlv
          rw [findAttrAddrGo, if_pos hb, commAddr_ok b h4 hl4 hlv]
    · refine ⟨fun hn => ?_, fun a ha => ?_⟩
      · rw [List.find?_cons_of_neg _ (by simp [hb])] at hn
        rw [findAttrAddrGo, if_neg hb]
        exact ih.1 hn
      · rw [List.find?_cons_of_neg _ (by simp [hb])] at ha
        rw [findAttrAddrGo, if_neg hb]
        exact ih.2 a ha

/-- Concrete witness for c9_accessor_behavior: a packet with one
mapped-address attribute holding port 80 and IP 1.2.3.4. -/
theorem c9_accessor_behavior_witness :
    findAttrAddr
        ({ types := 257, length := 12, transID := [],
           attributes := [{ types := 1, length := 8, value := [0, 1, 0, 80, 1, 2, 3, 4] }],
           orgHost := none }) 1 =
      some (some { ip := [1, 2, 3, 4], port := 80 }) :=
  (((c9_accessor_behavior
      ({ types := 257, length := 12, transID := [],
         attributes := [{ types := 1, length := 8, value := [0, 1, 0, 80, 1, 2, 3, 4] }],
         orgHost := none }) 1).2
    ({ types := 1, length := 8, value := [0, 1, 0, 80, 1, 2, 3, 4] }) (by decide)).2
    (by decide) (by decide) (by decide)).trans (by decide)

/-- C9 counterexample input: a parseable message carrying a
MappedAddress attribute with an empty value (followed by 4 filler bytes
so the truncated loop still decodes it). -/
def c9cxInput : List Nat := List.replicate 20 0 ++ [0, 1, 0, 0, 0, 0, 0, 0]

/-- C9 counterexample: the claim says the accessor returns the address or
none and never crashes on a matching attribute whose value is shorter
than the 4-byte address header; but on this parser-produced packet the
first MappedAddress attribute has an empty value and the accessor panics
(model result none: commAddr indexes value[2:4] out of range) rather
than returning a value. -/
theorem c9_accessor_cx :
    parsePackage c9cxInput =
      some (.ok { types := 0, length := 4, transID := List.replicate 16 0,
                  attributes := [{ types := 1, length := 0, value := [] }],
                  orgHost := none }) ∧
    getMappedAddr { types := 0, length := 4, transID := List.replicate 16 0,
                    attributes := [{ types := 1, length := 0, value := [] }],
                    orgHost := none } = none := by
  exact ⟨rfl, rfl⟩

/-- NATType from const.go. -/
inductive NATType where
  | NATTypeUnknown
  | NATTypeOpenInternet
  | NATTypeFullCone
  | NATTypeRestricted
  | NATTypePortRestricted
  | NATTypeSymmetricUDPFirewall
  | NATTypeSymmetric
  | NATTypeUdpBlocked
  | NATTypeError
deriving DecidableEq, Repr

open NATType

/-- Session state of Client from client.go (the transport handle is
abstracted away: its behavior enters through the event oracle below). -/
structure Client where
  nLocalAddr : Option UDPAddr
  nSrvAddr : Option UDPAddr
  nChangedAddr : Option UDPAddr
  nMappedAddr : Option UDPAddr
deriving DecidableEq, Repr

/-- One outcome of conn.ReadFrom before the current deadline: a datagram
(raw bytes plus sender), or a non-timeout read error.  A read after the
list is exhausted yields the deadline timeout. -/
inductive RecvEvent where
  | pkt (data : List Nat) (peer : UDPAddr)
  | fail (e : String)
deriving DecidableEq, Repr

/-- External transport behavior of one send attempt: the WriteTo outcome
(error, or a short write), the SetReadDeadline outcome, and the datagrams
delivered before the deadline expires. -/
structure AttemptEvents where
  sendErr : Option String
  sendShort : Bool
  deadlineErr : Option String
  recvs : List RecvEvent
deriving Repr

/-- Model of newPacket from packet.go: the random source either fails
(rand = none, the Go error return) or yields the 12 random transaction
bytes.  Go new(packet) zero-initializes types and length. -/
def newPacket (rand : Option (List Nat)) : Option packet :=
  match rand with
  | none => none
  | some bs =>
    some { types := 0, length := 0, transID := magicCookieBytes ++ bs,
           attributes := [], orgHost := none }

/-- buildBindingRequest from client.go: returns none (Go nil) when
newPacket fails. -/
def buildBindingRequest (changeIP changePort : Bool) (rand : Option (List Nat)) :
    Option packet :=
  match newPacket rand with
  | none => none
  | some pkt =>
    let pkt := { pkt with types := msgTypeBindingRequest }
    if changeIP || changePort then
      some (addAttribute pkt (newChangeReqAttribute changeIP changePort))
    else some pkt

/-- Model of the chkfun callbacks of client.go; none marks a panic raised
inside the callback (the address accessors can panic, see commAddr). -/
def Chkfun := Client → packet → Option Bool

/-- Result of the inner read loop of fsmSendPackageWaitReply for one
attempt window. -/
inductive ListenResult where
  | timedOut
  | aborted (e : String)
  | got (p : packet)
  | panicked
deriving DecidableEq, Repr

/-- Inner read loop of fsmSendPackageWaitReply (client.go lines 83-107):
parse each datagram — a parse error aborts the whole operation; a
transaction-id mismatch or a rejected packet is skipped; an accepted
packet (with the sender recorded in orgHost) is returned. -/
def listenLoop (c : Client) (rqst : packet) (fchk : Chkfun) :
    List RecvEvent → ListenResult
  | [] => .timedOut
  | .fail e :: _ => .aborted e
  | .pkt data peer :: rest =>
    match parsePackage data with
    | none => .panicked
    | some (.error e) => .aborted e
    | some (.ok p) =>
      if rqst.transID = p.transID then
        let p := { p with orgHost := some peer }
        match fchk c p with
        | none => .panicked
        | some true => .got p
        | some false => listenLoop c rqst fchk rest
      else listenLoop c rqst fchk rest

/-- Observable trace of one fsmSendPackageWaitReply run: the read deadline
(ms) of each attempt whose deadline was set, the number of WriteTo calls,
and the Go return value (ok none is the distinguished no-reply (nil, nil)
outcome). -/
structure EngineTrace where
  deadlines : List Nat
  sends : Nat
  result : Except String (Option packet)
deriving DecidableEq, Repr

/-- Attempt loop of fsmSendPackageWaitReply: k attempts remain, i attempts
already started, timeout is the current deadline in ms, acc the deadlines
already used (reversed). -/
def fsmGo (c : Client) (rqst : packet) (fchk : Chkfun) (io : Nat → AttemptEvents) :
    Nat → Nat → Nat → List Nat → Option EngineTrace
  | 0, i, _, acc => some { deadlines := acc.reverse, sends := i, result := .ok none }
  | k + 1, i, timeout, acc =>
    let a := io i
    match a.sendErr with
    | some e => some { deadlines := acc.reverse, sends := i + 1, result := .error e }
    | none =>
      if a.sendShort then
        some { deadlines := acc.reverse, sends := i + 1,
               result := .error "error in sending rqstPkgData" }
      else
        match a.deadlineErr with
        | some e => some { deadlines := acc.reverse, sends := i + 1, result := .error e }
        | none =>
          let timeout2 := if timeout < 1600 then timeout * 2 else timeout
          match listenLoop c rqst fchk a.recvs with
          | .panicked => none
          | .aborted e =>
            some { deadlines := (timeout :: acc).reverse, sends := i + 1, result := .error e }
          | .got p =>
            some { deadlines := (timeout :: acc).reverse, sends := i + 1, result := .ok (some p) }
          | .timedOut => fsmGo c rqst fchk io k (i + 1) timeout2 (timeout :: acc)

/-- fsmSendPackageWaitReply from client.go: up to 9 attempts, starting
deadline 100ms, doubling up to the 1600ms cap.  The request is an Option:
Go dereferences it immediately (rqst.serialize), so a nil request panics
(none). -/
def fsmSendPackageWaitReply (c : Client) (rqst : Option packet) (fchk : Chkfun)
    (io : Nat → AttemptEvents) : Option EngineTrace :=
  match rqst with
  | none => none
  | some r => fsmGo c r fchk io 9 0 100 []

/-- Acceptance predicate of doTest1: the reply must carry both a mapped
and a changed address (both accessors run unconditionally and may panic). -/
def test1chk : Chkfun := fun _ p =>
  match getMappedAddr p, getChangedAddr p with
  | some m, some ch => some (m.isSome && ch.isSome)
  | _, _ => none

/-- Acceptance predicate of doTest2: the sender must equal the changed
address recorded by Test1. -/
def test2chk : Chkfun := fun cli p => some (addrOptEq cli.nChangedAddr p.orgHost)

/-- Acceptance predicate of doTest3: the reply must carry a mapped
address. -/
def test3chk : Chkfun := fun _ p =>
  match getMappedAddr p with
  | some m => some m.isSome
  | none => none

/-- Acceptance predicate of doTest4: the sender port must differ from the
probed server port (reading .Port panics on a nil address). -/
def test4chk (srvAddr : Option UDPAddr) : Chkfun := fun _ p =>
  match p.orgHost with
  | none => none
  | some h =>
    match srvAddr with
    | none => none
    | some s => some (decide (h.port ≠ s.port))

/-- doTest1 from client.go.  none marks a panic (nil request inside the
engine, or a panicking address accessor). -/
def doTest1 (c : Client) (rand : Option (List Nat)) (io : Nat → AttemptEvents) :
    Option (Client × NATType × Option String) :=
  match fsmSendPackageWaitReply c (buildBindingRequest false false rand) test1chk io with
  | none => none
  | some tr =>
    match tr.result with
    | .error e => some (c, NATTypeError, some e)
    | .ok none => some (c, NATTypeUdpBlocked, none)
    | .ok (some reply) =>
      match getMappedAddr reply with
      | none => none
      | some m =>
        match getChangedAddr reply with
        | none => none
        | some ch => some ({ c with nMappedAddr := m, nChangedAddr := ch },
                           NATTypeUnknown, none)

/-- doTest2 from client.go. -/
def doTest2 (c : Client) (rand : Option (List Nat)) (io : Nat → AttemptEvents) :
    Option (Client × NATType × Option String) :=
  match fsmSendPackageWaitReply c (buildBindingRequest true true rand) test2chk io with
  | none => none
  | some tr =>
    match tr.result with
    | .error e => some (c, NATTypeError, some e)
    | .ok none =>
      if addrOptEq c.nMappedAddr c.nLocalAddr then
        some (c, NATTypeSymmetricUDPFirewall, none)
      else some (c, NATTypeUnknown, none)
    | .ok (some _) =>
      if addrOptEq c.nMappedAddr c.nLocalAddr then
        some (c, NATTypeOpenInternet, none)
      else some (c, NATTypeFullCone, none)

/-- doTest3 from client.go. -/
def doTest3 (c : Client) (rand : Option (List Nat)) (io : Nat → AttemptEvents) :
    Option (Client × NATType × Option String) :=
  match fsmSendPackageWaitReply c (buildBindingRequest false false rand) test3chk io with
  | none => none
  | some tr =>
    match tr.result with
    | .error e => some (c, NATTypeError, some e)
    | .ok none => some (c, NATTypeError, some "the CHANGED server had NO answer")
    | .ok (some reply) =>
      match getMappedAddr reply with
      | none => none
      | some nm =>
        if ¬ addrOptEq nm c.nMappedAddr then some (c, NATTypeSymmetric, none)
        else some (c, NATTypeUnknown, none)

/-- doTest4 from client.go; srvAddr is the probed destination, used by the
acceptance predicate. -/
def doTest4 (c : Client) (srvAddr : Option UDPAddr) (rand : Option (List Nat))
    (io : Nat → AttemptEvents) : Option (Client × NATType × Option String) :=
  match fsmSendPackageWaitReply c (buildBindingRequest false true rand) (test4chk srvAddr) io with
  | none => none
  | some tr =>
    match tr.result with
    | .error e => some (c, NATTypeError, some e)
    | .ok none => some (c, NATTypePortRestricted, none)
    | .ok (some _) => some (c, NATTypeRestricted, none)

/-- doDetect from client.go, instrumented with the list of probe
invocations actually performed: (probe number, destination address), in
order.  The trace is reported even when a later step panics (first
component none). -/
def doDetect (c : Client) (r1 r2 r3 r4 : Option (List Nat))
    (io1 io2 io3 io4 : Nat → AttemptEvents) :
    Option (Client × NATType × Option String) × List (Nat × Option UDPAddr) :=
  let t1 := (1, c.nSrvAddr)
  match doTest1 c r1 io1 with
  | none => (none, [t1])
  | some (c1, ty1, e1) =>
    if e1 ≠ none ∨ ty1 ≠ NATTypeUnknown then (some (c1, ty1, e1), [t1])
    else
      let t2 := (2, c1.nSrvAddr)
      match doTest2 c1 r2 io2 with
      | none => (none, [t1, t2])
      | some (c2, ty2, e2) =>
        if e2 ≠ none ∨ ty2 ≠ NATTypeUnknown then (some (c2, ty2, e2), [t1, t2])
        else
          let t3 := (3, c2.nChangedAddr)
          match doTest3 c2 r3 io3 with
          | none => (none, [t1, t2, t3])
          | some (c3, ty3, e3) =>
            if e3 ≠ none ∨ ty3 ≠ NATTypeUnknown then (some (c3, ty3, e3), [t1, t2, t3])
            else
              let t4 := (4, c3.nSrvAddr)
              match doTest4 c3 c3.nSrvAddr r4 io4 with
              | none => (none, [t1, t2, t3, t4])
              | some out => (some out, [t1, t2, t3, t4])

/-- A plain binding request with transaction id cookie ++ twelve copies
of k, used to exercise the engine model on concrete runs. -/
def testReq (k : Nat) : packet :=
  { types := 1, length := 0, transID := magicCookieBytes ++ List.replicate 12 k,
    attributes := [], orgHost := none }

/-- An attribute-free binding response with transaction id cookie ++
twelve copies of k. -/
def testResp (k : Nat) : packet :=
  { types := 257, length := 0, transID := magicCookieBytes ++ List.replicate 12 k,
    attributes := [], orgHost := none }

theorem listenLoop_decode_error (c : Client) (rqst : packet) (fchk : Chkfun)
    (data : List Nat) (peer : UDPAddr) (rest : List RecvEvent) (e : String)
    (h : parsePackage data = some (.error e)) :
    listenLoop c rqst fchk (.pkt data peer :: rest) = .aborted e := by
  rw [listenLoop, h]

theorem listenLoop_transid_skip (c : Client) (rqst : packet) (fchk : Chkfun)
    (data : List Nat) (peer : UDPAddr) (rest : List RecvEvent) (p : packet)
    (h : parsePackage data = some (.ok p)) (hid : rqst.transID ≠ p.transID) :
    listenLoop c rqst fchk (.pkt data peer :: rest) = listenLoop c rqst fchk rest := by
  rw [listenLoop, h]
  simp only [if_neg hid]

theorem listenLoop_reject_skip (c : Client) (rqst : packet) (fchk : Chkfun)
    (data : List Nat) (peer : UDPAddr) (rest : List RecvEvent) (p : packet)
    (h : parsePackage data = some (.ok p)) (hid : rqst.transID = p.transID)
    (hrej : fchk c { p with orgHost := some peer } = some false) :
    listenLoop c rqst fchk (.pkt data peer :: rest) = listenLoop c rqst fchk rest := by
  rw [listenLoop, h]
  simp only [if_pos hid, hrej]

/-- C2 (amended): in the listen loop, a datagram whose transaction id
mismatches the request and a datagram rejected by the acceptance
predicate are both discarded, the loop continuing to read within the same
deadline window; but — contrary to the claim — a datagram that fails to
decode is not discarded: it aborts the whole operation with the decode
error (counterexample c2_listen_loop_discard_cx). -/
theorem c2_listen_loop_discard (c : Client) (rqst : packet) (fchk : Chkfun)
    (data : List Nat) (peer : UDPAddr) (rest : List RecvEvent) :
    (∀ p, parsePackage data = some (.ok p) → rqst.transID ≠ p.transID →
      listenLoop c rqst fchk (.pkt data peer :: rest) = listenLoop c rqst fchk rest) ∧
    (∀ p, parsePackage data = some (.ok p) → rqst.transID = p.transID →
      fchk c { p with orgHost := some peer } = some false →
      listenLoop c rqst fchk (.pkt data peer :: rest) = listenLoop c rqst fchk rest) ∧
    (∀ e, parsePackage data = some (.error e) →
      listenLoop c rqst fchk (.pkt data peer :: rest) = .aborted e) :=
  ⟨fun p h hid => listenLoop_transid_skip c rqst fchk data peer rest p h hid,
   fun p h hid hrej => listenLoop_reject_skip c rqst fchk data peer rest p h hid hrej,
   fun e h => listenLoop_decode_error c rqst fchk data peer rest e h⟩

/-- Concrete witness for c2_listen_loop_discard: a datagram carrying a
foreign transaction id is skipped and the loop then times out. -/
theorem c2_listen_loop_discard_witness :
    listenLoop ⟨none, none, none, none⟩ (testReq 1) (fun _ _ => some true)
        [.pkt (serialize (testResp 2)) ⟨[1, 2, 3, 4], 3478⟩] = .timedOut :=
  ((c2_listen_loop_discard ⟨none, none, none, none⟩ (testReq 1) (fun _ _ => some true)
      (serialize (testResp 2)) ⟨[1, 2, 3, 4], 3478⟩ []).1
    (testResp 2) (by decide) (by decide)).trans rfl

/-- C2 counterexample: a run in which the first attempt receives an
undecodable datagram (an empty one) followed by a perfectly valid,
matching, acceptable reply.  The claim says the undecodable datagram is
discarded while the loop keeps reading — it would then return the valid
reply — but the code aborts the whole operation with the decode error
after a single send. -/
theorem c2_listen_loop_discard_cx :
    fsmSendPackageWaitReply ⟨none, none, none, none⟩ (some (testReq 5))
        (fun _ _ => some true)
        (fun _ => ⟨none, false, none,
          [.pkt [] ⟨[9, 9, 9, 9], 1⟩,
           .pkt (serialize (testResp 5)) ⟨[9, 9, 9, 9], 1⟩]⟩) =
      some { deadlines := [100], sends := 1,
             result := .error "received data length too short" } := by
  rfl

/-- C3 (amended): a datagram that fails to decode is indeed fatal — the
listen loop aborts the whole operation with the decode error — but a
datagram that decodes with a mismatched transaction id is NOT fatal: it
is skipped and the loop keeps reading within the same deadline window
(counterexample c3_listen_loop_fatal_cx). -/
theorem c3_listen_loop_fatal (c : Client) (rqst : packet) (fchk : Chkfun)
    (data : List Nat) (peer : UDPAddr) (rest : List RecvEvent) :
    (∀ e, parsePackage data = some (.error e) →
      listenLoop c rqst fchk (.pkt data peer :: rest) = .aborted e) ∧
    (∀ p, parsePackage data = some (.ok p) → rqst.transID ≠ p.transID →
      listenLoop c rqst fchk (.pkt data peer :: rest) = listenLoop c rqst fchk rest) :=
  ⟨fun e h => listenLoop_decode_error c rqst fchk data peer rest e h,
   fun p h hid => listenLoop_transid_skip c rqst fchk data peer rest p h hid⟩

/-- Concrete witness for c3_listenLoop_fatal: an empty datagram aborts the
loop with the decode error. -/
theorem c3_listen_loop_fatal_witness :
    listenLoop ⟨none, none, none, none⟩ (testReq 1) (fun _ _ => some true)
        [.pkt [] ⟨[1, 2, 3, 4], 3478⟩] =
      .aborted "received data length too short" :=
  (c3_listen_loop_fatal ⟨none, none, none, none⟩ (testReq 1) (fun _ _ => some true)
      [] ⟨[1, 2, 3, 4], 3478⟩ []).1
    "received data length too short" (by decide)

/-- C3 counterexample: a run whose first attempt receives a datagram with
a foreign transaction id followed by a matching acceptable reply.  The
claim says the mismatched datagram aborts the run with an error; instead
the code skips it and returns the subsequent valid reply. -/
theorem c3_listen_loop_fatal_cx :
    fsmSendPackageWaitReply ⟨none, none, none, none⟩ (some (testReq 1))
        (fun _ _ => some true)
        (fun _ => ⟨none, false, none,
          [.pkt (serialize (testResp 2)) ⟨[9, 9, 9, 9], 1⟩,
           .pkt (serialize (testResp 1)) ⟨[9, 9, 9, 9], 1⟩]⟩) =
      some { deadlines := [100], sends := 1,
             result := .ok (some { testResp 1 with orgHost := some ⟨[9, 9, 9, 9], 1⟩ }) } := by
  rfl

/-- The deadline sequence produced by the doubling rule of
fsmSendPackageWaitReply, starting from a given timeout. -/
def deadlineSeq : Nat → Nat → List Nat
  | _, 0 => []
  | t, k + 1 => t :: deadlineSeq (if t < 1600 then t * 2 else t) k

/-- A fully clean, fully timed-out window of k attempts runs all k sends
and ends in the no-reply outcome, recording the doubling deadlines. -/
theorem fsmGo_all_timeout (c : Client) (rqst : packet) (fchk : Chkfun)
    (io : Nat → AttemptEvents) :
    ∀ (k i timeout : Nat) (acc : List Nat),
      (∀ j, i ≤ j → j < i + k → (io j).sendErr = none ∧ (io j).sendShort = false ∧
        (io j).deadlineErr = none ∧ listenLoop c rqst fchk (io j).recvs = .timedOut) →
      fsmGo c rqst fchk io k i timeout acc =
        some { deadlines := acc.reverse ++ deadlineSeq timeout k, sends := i + k,
               result := .ok none }
  | 0, i, timeout, acc, _ => by simp [fsmGo, deadlineSeq]
  | k + 1, i, timeout, acc, h => by
    obtain ⟨h1, h2, h3, h4⟩ := h i (by omega) (by omega)
    rw [fsmGo, h1]
    simp only [h2, Bool.false_eq_true, if_false, h3, h4]
    rw [fsmGo_all_timeout c rqst fchk io k (i + 1) _ (timeout :: acc)
      (fun j hj1 hj2 => h j (by omega) (by omega))]
    rw [deadlineSeq]
    simp [Nat.add_assoc, Nat.add_comm 1 k]

/-- C4 (amended): in a run of the retransmission engine where every send
succeeds in full, every deadline is set, and every received datagram is
discarded — that is, no reply is accepted and nothing aborts, so each of
the windows times out — exactly 9 send attempts occur, attempt k
(0-indexed) uses the read deadline min(100 * 2^k, 1600) ms (the sequence
100, 200, 400, 800, 1600, 1600, 1600, 1600, 1600), and the engine then
returns the distinguished no-reply outcome with no error.  The
no-abort condition is forced by the counterexample
c4_nine_attempts_cx: a run aborted by a read error also accepts no
reply, yet stops after one send with an error outcome. -/
theorem c4_nine_attempts (c : Client) (rqst : packet) (fchk : Chkfun)
    (io : Nat → AttemptEvents)
    (h : ∀ j, j < 9 → (io j).sendErr = none ∧ (io j).sendShort = false ∧
      (io j).deadlineErr = none ∧ listenLoop c rqst fchk (io j).recvs = .timedOut) :
    fsmSendPackageWaitReply c (some rqst) fchk io =
      some { deadlines := (List.range 9).map (fun k => min (100 * 2 ^ k) 1600),
             sends := 9, result := .ok none } := by
  have := fsmGo_all_timeout c rqst fchk io 9 0 100 []
    (fun j hj1 hj2 => h j (by omega))
  rw [fsmSendPackageWaitReply, this]
  rfl

/-- Concrete witness for c4_nine_attempts: every window is empty, so all
nine attempts time out. -/
theorem c4_nine_attempts_witness :
    fsmSendPackageWaitReply ⟨none, none, none, none⟩ (some (testReq 1))
        (fun _ _ => some true) (fun _ => ⟨none, false, none, []⟩) =
      some { deadlines := (List.range 9).map (fun k => min (100 * 2 ^ k) 1600),
             sends := 9, result := .ok none } :=
  c4_nine_attempts ⟨none, none, none, none⟩ (testReq 1)
    (fun _ _ => some true) (fun _ => ⟨none, false, none, []⟩)
    (fun _ _ => ⟨rfl, rfl, rfl, rfl⟩)

/-- C4 counterexample: a run whose first read fails with a non-timeout
error accepts no reply either, yet performs exactly one send attempt and
returns an error — not 9 attempts with the no-reply outcome, refuting
the claim as stated over all no-accepted-reply runs. -/
theorem c4_nine_attempts_cx :
    fsmSendPackageWaitReply ⟨none, none, none, none⟩ (some (testReq 1))
        (fun _ _ => some true) (fun _ => ⟨none, false, none, [.fail "connection refused"]⟩) =
      some { deadlines := [100], sends := 1, result := .error "connection refused" } ∧
    (1 : Nat) ≠ 9 := by
  exact ⟨rfl, by decide⟩

/-- C1: the detection driver runs the probes in the fixed order Test1,
Test2, Test3, Test4, stopping at the first probe that returns a
non-Unknown classification or an error.  (a) A terminal Test1 outcome is
returned after that single probe.  Given that Test1 advanced (Unknown, no
error) and Test2's engine call completed: (b) an accepted reply ends the
run with OpenInternet when the mapped address recorded by Test1 equals
the locally bound address and FullCone otherwise; (c) no reply with
mapped = local ends the run with SymmetricUDPFirewall; (d) no reply with
mapped ≠ local advances the run to Test3 aimed at the changed address
recorded by Test1. -/
theorem c1_driver_order (c : Client) (r1 r2 r3 r4 : Option (List Nat))
    (io1 io2 io3 io4 : Nat → AttemptEvents) :
    (∀ c1 ty1 e1, doTest1 c r1 io1 = some (c1, ty1, e1) →
      e1 ≠ none ∨ ty1 ≠ NATTypeUnknown →
      doDetect c r1 r2 r3 r4 io1 io2 io3 io4 = (some (c1, ty1, e1), [(1, c.nSrvAddr)])) ∧
    (∀ c1, doTest1 c r1 io1 = some (c1, NATTypeUnknown, none) →
      ∀ tr2, fsmSendPackageWaitReply c1 (buildBindingRequest true true r2) test2chk io2 =
          some tr2 →
        (∀ p, tr2.result = .ok (some p) →
          doDetect c r1 r2 r3 r4 io1 io2 io3 io4 =
            (some (c1, if addrOptEq c1.nMappedAddr c1.nLocalAddr then NATTypeOpenInternet
                else NATTypeFullCone, none),
             [(1, c.nSrvAddr), (2, c1.nSrvAddr)])) ∧
        (tr2.result = .ok none → addrOptEq c1.nMappedAddr c1.nLocalAddr = true →
          doDetect c r1 r2 r3 r4 io1 io2 io3 io4 =
            (some (c1, NATTypeSymmetricUDPFirewall, none),
             [(1, c.nSrvAddr), (2, c1.nSrvAddr)])) ∧
        (tr2.result = .ok none → addrOptEq c1.nMappedAddr c1.nLocalAddr = false →
          (doDetect c r1 r2 r3 r4 io1 io2 io3 io4).2.take 3 =
            [(1, c.nSrvAddr), (2, c1.nSrvAddr), (3, c1.nChangedAddr)])) := by
  constructor
  · intro c1 ty1 e1 h1 hterm
    unfold doDetect
    rw [h1]
    simp only []
    rw [if_pos hterm]
  · intro c1 h1 tr2 hfsm
    have hT2 : ∀ v, tr2.result = v → doTest2 c1 r2 io2 =
        (match v with
         | .error e => some (c1, NATTypeError, some e)
         | .ok none =>
           if addrOptEq c1.nMappedAddr c1.nLocalAddr then
             some (c1, NATTypeSymmetricUDPFirewall, none)
           else some (c1, NATTypeUnknown, none)
         | .ok (some _) =>
           if addrOptEq c1.nMappedAddr c1.nLocalAddr then
             some (c1, NATTypeOpenInternet, none)
           else some (c1, NATTypeFullCone, none)) := by
      intro v hv
      unfold doTest2
      rw [hfsm]
      simp only []
      rw [hv]
    refine ⟨?_, ?_, ?_⟩
    · intro p hres
      unfold doDetect
      rw [h1]
      simp only []
      rw [if_neg (by decide), hT2 _ hres]
      simp only []
      by_cases hpub : addrOptEq c1.nMappedAddr c1.nLocalAddr = true
      · rw [if_pos hpub, if_pos hpub]
        simp only []
        rw [if_pos (by decide)]
      · rw [if_neg hpub, if_neg hpub]
        simp only []
        rw [if_pos (by decide)]
    · intro hres hpub
      unfold doDetect
      rw [h1]
      simp only []
      rw [if_neg (by decide), hT2 _ hres]
      simp only []
      rw [if_pos hpub]
      simp only []
      rw [if_pos (by decide)]
    · intro hres hpub
      unfold doDetect
      rw [h1]
      simp only []
      rw [if_neg (by decide), hT2 _ hres]
      simp only []
      rw [if_neg (by simp [hpub])]
      simp only []
      rw [if_neg (by decide)]
      rcases doTest3 c1 r3 io3 with _ | ⟨c3, ty3, e3⟩
      · simp
      · simp only []
        by_cases hterm3 : e3 ≠ none ∨ ty3 ≠ NATTypeUnknown
        · rw [if_pos hterm3]
          simp
        · rw [if_neg hterm3]
          rcases doTest4 c3 c3.nSrvAddr r4 io4 with _ | out <;> simp

/-- Client state used by the C1 witness run: local and server addresses
already resolved. -/
def c1wClient : Client :=
  { nLocalAddr := some ⟨[10, 0, 0, 1], 5000⟩, nSrvAddr := some ⟨[1, 2, 3, 4], 3478⟩,
    nChangedAddr := none, nMappedAddr := none }

/-- Test1 reply of the C1 witness run: mapped address 9.9.9.9:80 and
changed address 5.6.7.8:3470. -/
def c1wReply1 : packet :=
  { types := 257, length := 24, transID := magicCookieBytes ++ List.replicate 12 1,
    attributes := [{ types := 1, length := 8, value := [0, 1, 0, 80, 9, 9, 9, 9] },
                   { types := 5, length := 8, value := [0, 1, 13, 142, 5, 6, 7, 8] }],
    orgHost := none }

/-- Test2 reply of the C1 witness run, sent from the changed address. -/
def c1wReply2 : packet :=
  { types := 257, length := 0, transID := magicCookieBytes ++ List.replicate 12 2,
    attributes := [], orgHost := none }

/-- Client state after the witness Test1 probe. -/
def c1wClient1 : Client :=
  { c1wClient with
    nMappedAddr := some ⟨[9, 9, 9, 9], 80⟩, nChangedAddr := some ⟨[5, 6, 7, 8], 3470⟩ }

def c1wIO1 : Nat → AttemptEvents :=
  fun _ => ⟨none, false, none, [.pkt (serialize c1wReply1) ⟨[1, 2, 3, 4], 3478⟩]⟩

def c1wIO2 : Nat → AttemptEvents :=
  fun _ => ⟨none, false, none, [.pkt (serialize c1wReply2) ⟨[5, 6, 7, 8], 3470⟩]⟩

/-- Concrete witness for c1_driver_order: a full run in which Test1
records a mapped address different from the local one and Test2 receives
an accepted reply from the changed address, so the driver stops after
Test2 with FullCone. -/
theorem c1_driver_order_witness :
    doDetect c1wClient (some (List.replicate 12 1)) (some (List.replicate 12 2)) none none
        c1wIO1 c1wIO2 (fun _ => ⟨none, false, none, []⟩) (fun _ => ⟨none, false, none, []⟩) =
      (some (c1wClient1, NATTypeFullCone, none),
       [(1, some ⟨[1, 2, 3, 4], 3478⟩), (2, some ⟨[1, 2, 3, 4], 3478⟩)]) :=
  (((c1_driver_order c1wClient (some (List.replicate 12 1)) (some (List.replicate 12 2))
      none none c1wIO1 c1wIO2 (fun _ => ⟨none, false, none, []⟩)
      (fun _ => ⟨none, false, none, []⟩)).2 c1wClient1 (by decide)
    ({ deadlines := [100], sends := 1,
       result := .ok (some { c1wReply2 with orgHost := some ⟨[5, 6, 7, 8], 3470⟩ }) })
    (by decide)).1
    ({ c1wReply2 with orgHost := some ⟨[5, 6, 7, 8], 3470⟩ }) (by decide)).trans (by decide)

/-- C10: when the random source fails, buildBindingRequest returns the
nil packet (none) instead of an error, every doTest passes it straight to
the retransmission engine, and the engine dereferences it to serialize
the request — so every probe panics (model result none) rather than
returning an error value. -/
theorem c10_nil_request_panics (cIP cPort : Bool) (c : Client) (srv : Option UDPAddr)
    (fchk : Chkfun) (io : Nat → AttemptEvents) :
    buildBindingRequest cIP cPort none = none ∧
    fsmSendPackageWaitReply c none fchk io = none ∧
    doTest1 c none io = none ∧
    doTest2 c none io = none ∧
    doTest3 c none io = none ∧
    doTest4 c srv none io = none :=
  ⟨rfl, rfl, rfl, rfl, rfl, rfl⟩

end Stun
